import Mathlib

/-!
Verification development for the akrios-frontend connection front end.

The Python sources are shallowly embedded: byte strings become `List Nat`
(one entry per byte), Python dicts become insertion-ordered association
lists over `String` keys, `asyncio.Queue`s become Lean lists (FIFO: puts
append at the tail), and JSON envelopes become structured records (the
`json.dumps`/`json.loads` round trip is abstracted away).  Python
exceptions (`KeyError`, `AttributeError`, `TypeError`) are made explicit
with `Except` values or with explicit error flags where a partially
mutated state must be kept.
-/

set_option autoImplicit false

namespace Akrios

/-! ## Python dict operations on insertion-ordered association lists

A Python dict never holds two bindings for the same key, so `d.pop(k)`
(which removes the single binding of `k`) is modelled by dropping every
binding of `k` from the association list; on lists that actually represent
dicts the two coincide. -/

/-- Mirror of `d[k]` / `d.get(k)`: value of the first binding of `k`. -/
def lookupD {α : Type} (l : List (String × α)) (k : String) : Option α :=
  match l with
  | [] => none
  | (k', v) :: rest => if k' = k then some v else lookupD rest k

/-- Mirror of `d[k] = v`: replace in place when the key exists, else append
(Python dicts preserve insertion order). -/
def insertD {α : Type} (l : List (String × α)) (k : String) (v : α) :
    List (String × α) :=
  match l with
  | [] => [(k, v)]
  | (k', v') :: rest =>
      if k' = k then (k', v) :: rest else (k', v') :: insertD rest k v

/-- Mirror of `d.pop(k)` for a present key: remove the binding of `k`. -/
def eraseD {α : Type} (l : List (String × α)) (k : String) :
    List (String × α) :=
  l.filter (fun p => p.1 != k)

/-! ## Telnet codec (src/protocols/telnet.py, src/protocols.py)

Byte strings are `List Nat` with one entry per byte. -/

/-- Keys of `code_by_byte` in src/protocols/telnet.py lines 43-62: the byte
values of the known Telnet codes IAC, DONT, DO, WONT, WILL, SB, GA, SE,
MSSP, CHARSET, NAWS, EOR, TTYPE, ECHO, theNull. -/
def code_by_byte_keys : List Nat :=
  [255, 254, 253, 252, 251, 250, 249, 240, 70, 42, 31, 25, 24, 1, 0]

/-- Membership of `chr(b)` in Python's `string.printable` for a byte `b`:
`string.printable` is digits, ASCII letters, punctuation and the whitespace
`' \t\n\r\x0b\x0c'`, i.e. exactly the code points 32..126 and 9..13. -/
def pyPrintable (b : Nat) : Bool :=
  (32 ≤ b && b ≤ 126) || (9 ≤ b && b ≤ 13)

/-- Loop body of `split_opcode_from_input`: walk the input bytes in order,
appending each byte to the opcode buffer when it is a known Telnet code,
else to the text buffer when printable, else discarding it
(src/protocols/telnet.py lines 107-122, identically src/protocols.py
lines 110-123). -/
def splitOpcodeGo (data ops inp : List Nat) : List Nat × List Nat :=
  match data with
  | [] => (ops, inp)
  | b :: rest =>
      if b ∈ code_by_byte_keys then splitOpcodeGo rest (ops ++ [b]) inp
      else if pyPrintable b then splitOpcodeGo rest ops (inp ++ [b])
      else splitOpcodeGo rest ops inp

/-- `split_opcode_from_input(data)` returns `(opcodes, inp)`. -/
def split_opcode_from_input (data : List Nat) : List Nat × List Nat :=
  splitOpcodeGo data [] []

/-- `echo_off()` returns `IAC WILL ECHO` (telnet.py lines 137-141). -/
def echo_off : List Nat := [255, 251, 1]

/-- `echo_on()` returns `IAC WONT ECHO` (telnet.py lines 144-148). -/
def echo_on : List Nat := [255, 252, 1]

/-- `go_ahead()` returns `IAC GA` (telnet.py lines 151-157). -/
def go_ahead : List Nat := [255, 249]

/-- An element of the mixed-type lists fed to `iac` / `iac_sb` /
`mssp_response`: a bytes object, a `str`, or an `int`. -/
inductive Tok : Type where
  | b (bytes : List Nat)
  | s (text : String)
  | i (n : Int)
deriving DecidableEq, Repr

/-- Bytes of an ASCII string (`str.encode()`; every string in the sources
is ASCII, so UTF-8 encoding is code-point by code-point). -/
def strBytes (s : String) : List Nat := s.toList.map Char.toNat

/-- Element encoding shared by `iac` and `iac_sb`: byte strings pass
through, strings are encoded, integers are rendered in decimal and then
encoded (telnet.py lines 69-104). -/
def encodeTok : Tok → List Nat
  | .b bytes => bytes
  | .s text => strBytes text
  | .i n => strBytes (toString n)

/-- `iac(codes)`: `IAC` followed by the concatenated encoded elements
(telnet.py lines 69-85). -/
def iacBytes (codes : List Tok) : List Nat :=
  [255] ++ (codes.map encodeTok).flatten

/-- `iac_sb(codes)`: the concatenated encoded elements framed by
`IAC SB … IAC SE` (telnet.py lines 88-104). -/
def iacSbBytes (codes : List Tok) : List Nat :=
  [255, 250] ++ (codes.map encodeTok).flatten ++ [255, 240]

/-- Python `bytes.split(sep)` for a single-byte separator: the (possibly
empty) chunks between occurrences of `sep`. -/
def splitOnByte (l : List Nat) (sep : Nat) : List (List Nat) :=
  match l with
  | [] => [[]]
  | b :: rest =>
      match splitOnByte rest sep with
      | [] => [[]]
      | chunk :: chunks =>
          if b = sep then [] :: chunk :: chunks else (b :: chunk) :: chunks

/-! ## MSSP (src/protocols/mssp.py) -/

/-- A value of the `mssp_values` dict: either a scalar or a list (the
source's loop branches on `type(v) == list`). -/
inductive MsspV : Type where
  | scalar (t : Tok)
  | lst (ts : List Tok)
deriving DecidableEq, Repr

/-- Modelled from the spec: the `statistics` module that provides
`mud_name`, `player_count` and `startup_time` is not under src/ (only its
importers are).  Per the spec these are the scalar variables "name, player
count, uptime" of the MSSP schema (one VAR/VAL pair each; frontend.py even
assigns `statistics.startup_time = int(time())`), so they are modelled as
three arbitrary scalar tokens.

This is the `mssp_values` dict of src/protocols/mssp.py lines 32-75, in
source order; the `"MINIMUM AGE"` entry is commented out in the source and
therefore absent. -/
def mssp_values (mud_name player_count startup_time : Tok) :
    List (String × MsspV) :=
  [("NAME", .scalar mud_name),
   ("PLAYERS", .scalar player_count),
   ("UPTIME", .scalar startup_time),
   ("CODEBASE", .scalar (.s "AkriosMUD")),
   ("CONTACT", .scalar (.s "phippsb@gmail.com")),
   ("CRAWL DELAY", .scalar (.i (-1))),
   ("CREATED", .scalar (.i 2002)),
   ("HOSTNAME", .scalar (.i (-1))),
   ("ICON", .scalar (.i (-1))),
   ("IP", .scalar (.i (-1))),
   ("IPV6", .scalar (.i (-1))),
   ("LANGUAGE", .scalar (.s "English")),
   ("LOCATION", .scalar (.s "United States of America")),
   ("PORT", .lst [.i 4000, .i 4001, .i 4002]),
   ("REFERRAL", .scalar (.i (-1))),
   ("WEBSITE", .scalar (.i (-1))),
   ("FAMILY", .scalar (.s "Custom")),
   ("GENRE", .scalar (.s "Fantasy")),
   ("GAMEPLAY", .scalar (.s "Adventure")),
   ("STATUS", .scalar (.s "Alpha")),
   ("GAMESYSTEM", .scalar (.s "None")),
   ("INTERMUD", .scalar (.s "Grapevine")),
   ("SUBGENRE", .scalar (.s "High Fantasy")),
   ("AREAS", .scalar (.i 1)),
   ("HELPFILES", .scalar (.i 60)),
   ("MOBILES", .scalar (.i 1)),
   ("OBJECTS", .scalar (.i 1)),
   ("ROOMS", .scalar (.i 20)),
   ("CLASSES", .scalar (.i 5)),
   ("LEVELS", .scalar (.i 50)),
   ("RACES", .scalar (.i 5)),
   ("SKILLS", .scalar (.i 1)),
   ("ANSI", .scalar (.i 1)),
   ("MSP", .scalar (.i 0)),
   ("UTF-8", .scalar (.i 1)),
   ("VT100", .scalar (.i 0)),
   ("XTERM 256 COLORS", .scalar (.i 0)),
   ("XTERM TRUE COLORS", .scalar (.i 0)),
   ("PAY TO PLAY", .scalar (.i 0)),
   ("PAY FOR PERKS", .scalar (.i 0)),
   ("HIRING BUILDERS", .scalar (.i 0)),
   ("HIRING CODERS", .scalar (.i 0))]

/-- Tokens contributed by one `mssp_values` entry: `MSSP_VAR`, the encoded
key, `MSSP_VAL` and the value for a scalar, repeated per element for a
list value (mssp.py lines 79-84). -/
def msspEntryTokens (k : String) : MsspV → List Tok
  | .scalar t => [.b [1], .b (strBytes k), .b [2], t]
  | .lst ts => ts.flatMap (fun t => [.b [1], .b (strBytes k), .b [2], t])

/-- `mssp_response()`: the `MSSP` opcode byte followed by the VAR/VAL
token groups of every `mssp_values` entry (mssp.py lines 31-86). -/
def mssp_response (mud_name player_count startup_time : Tok) : List Tok :=
  Tok.b [70] ::
    (mssp_values mud_name player_count startup_time).flatMap
      (fun kv => msspEntryTokens kv.1 kv.2)

/-- `telnet.handle(opcodes, writer)` (telnet.py lines 161-177): split the
opcode bytes on `IAC`; every non-empty chunk equal to `DO MSSP` (the only
key of `opcode_match`) produces one write of `iac_sb(mssp_response())`.
The returned list holds the written byte strings in order. -/
def telnetHandle (opcodes : List Nat)
    (mud_name player_count startup_time : Tok) : List (List Nat) :=
  (splitOnByte opcodes 255).filterMap (fun chunk =>
    if chunk ≠ [] ∧ chunk = [253, 70] then
      some (iacSbBytes (mssp_response mud_name player_count startup_time))
    else none)

/-! ## Messages (src/messaging/messages.py) -/

/-- The Python exceptions that the embedded code can raise. -/
inductive PyErr : Type where
  | keyError
  | attributeError
  | typeError
deriving DecidableEq, Repr

/-- The keyword arguments accepted by the `Message` constructor of
src/messaging/messages.py; `none` models an absent keyword. -/
structure Kwargs : Type where
  message : Option String := none
  command : Option (List Nat) := none
  is_prompt : Option String := none
deriving DecidableEq, Repr

/-- A constructed `Message` object of src/messaging/messages.py.
`msg_type = none` models the attribute never having been assigned (the
constructor only assigns it for the three known kinds). -/
structure Message : Type where
  msg : String
  command : Option (List Nat)
  prompt : String
  msg_type : Option String
deriving DecidableEq, Repr

/-- `Message.__init__` (messages.py lines 33-38): `self.msg = kwargs['message']`
raises `KeyError` when the keyword is absent; `command` defaults to `None`,
`is_prompt` to `"false"`; `msg_type` is assigned only for the kinds
`IO`, `COMMAND-TELNET`, `COMMAND-SSH`. -/
def Message.ofKwargs (msg_type : String) (kw : Kwargs) : Except PyErr Message :=
  match kw.message with
  | none => .error .keyError
  | some m =>
      .ok { msg := m
            command := kw.command
            prompt := kw.is_prompt.getD "false"
            msg_type :=
              if msg_type = "IO" ∨ msg_type = "COMMAND-TELNET" ∨
                  msg_type = "COMMAND-SSH" then some msg_type else none }

/-- Property `is_command_telnet` (messages.py lines 40-45); reading an
unassigned `msg_type` raises `AttributeError`. -/
def Message.is_command_telnet (m : Message) : Except PyErr Bool :=
  match m.msg_type with
  | none => .error .attributeError
  | some t => .ok (t == "COMMAND-TELNET")

/-- Property `is_command_ssh` (messages.py lines 47-52). -/
def Message.is_command_ssh (m : Message) : Except PyErr Bool :=
  match m.msg_type with
  | none => .error .attributeError
  | some t => .ok (t == "COMMAND-SSH")

/-- Property `is_io` (messages.py lines 54-59). -/
def Message.is_io (m : Message) : Except PyErr Bool :=
  match m.msg_type with
  | none => .error .attributeError
  | some t => .ok (t == "IO")

/-- Property `is_prompt` (messages.py lines 61-66): `self.prompt == "true"`
(`prompt` is always assigned, so this never raises). -/
def Message.is_prompt (m : Message) : Bool :=
  m.prompt == "true"

/-! ## Sessions and front-end state (src/clients.py, src/servers/servers.py) -/

/-- A `PlayerConnection` (clients.py lines 32-52).  The `state` dict
`{"connected": …, "logged in": …}` is split into two fields. -/
structure PlayerConnection : Type where
  addr : String
  port : Nat
  rows : Nat := 24
  conn_type : String
  connected : Bool := true
  logged_in : Bool := false
  name : String := ""
  uuid : String
deriving DecidableEq, Repr

/-- A `GameConnection` (servers/servers.py lines 32-43). -/
structure GameConnection : Type where
  connected : Bool := true
  uuid : String
deriving DecidableEq, Repr

/-- A JSON envelope sent upstream to the game.  In the source these travel
as `Message("IO", message=json.dumps({event, secret, payload}))`; the JSON
text is abstracted to its structured payload fields (unused fields keep
their defaults). -/
structure Envelope : Type where
  event : String
  uuid : String
  addr : String
  port : Nat
  rows : Nat := 0
  msg : String := ""
deriving DecidableEq, Repr

/-- Payload of `notify_connected` (clients.py lines 54-74). -/
def connectedEnv (c : PlayerConnection) : Envelope :=
  { event := "connection/connected", uuid := c.uuid, addr := c.addr,
    port := c.port, rows := c.rows }

/-- Payload of `notify_disconnected` (clients.py lines 76-95). -/
def disconnectedEnv (c : PlayerConnection) : Envelope :=
  { event := "connection/disconnected", uuid := c.uuid, addr := c.addr,
    port := c.port }

/-- Payload built by `client_read` for one input line (clients.py
lines 157-180). -/
def playerInputEnv (c : PlayerConnection) (msg : String) : Envelope :=
  { event := "player/input", uuid := c.uuid, addr := c.addr, port := c.port,
    msg := msg }

/-- The front end's process-wide mutable state: the client session
registry `clients.connections`, the per-session outbound queue map
`messages_to_clients`, the upstream queue `messages_to_game`, the game
connection registry `servers.connections`, the names of the live asyncio
tasks, and the wait times of scheduled soft-boots. -/
structure FEState : Type where
  clients : List (String × PlayerConnection) := []
  messages_to_clients : List (String × List Message) := []
  messages_to_game : List Envelope := []
  games : List (String × GameConnection) := []
  tasks : List String := []
  softboots : List Nat := []
deriving DecidableEq, Repr

/-- `clients.register_client` (clients.py lines 126-133): insert the
session into the registry, create its (empty) outbound queue, then
`notify_connected` puts a `connection/connected` envelope upstream. -/
def register_client (c : PlayerConnection) (st : FEState) : FEState :=
  { st with
      clients := insertD st.clients c.uuid c
      messages_to_clients := insertD st.messages_to_clients c.uuid []
      messages_to_game := st.messages_to_game ++ [connectedEnv c] }

/-- `clients.unregister_client` (clients.py lines 136-144): when the uuid
is registered, pop it from the registry, pop its queue, and
`notify_disconnected` puts a `connection/disconnected` envelope upstream;
otherwise do nothing.  The Boolean is `true` when `messages_to_clients.pop`
raised `KeyError` (only possible if the two maps were out of sync; the
registry pop has already happened by then and is kept). -/
def unregister_client (c : PlayerConnection) (st : FEState) :
    FEState × Bool :=
  if (lookupD st.clients c.uuid).isSome then
    let st1 := { st with clients := eraseD st.clients c.uuid }
    match lookupD st1.messages_to_clients c.uuid with
    | some _ =>
        ({ st1 with
            messages_to_clients := eraseD st1.messages_to_clients c.uuid
            messages_to_game := st1.messages_to_game ++ [disconnectedEnv c] },
         false)
    | none => (st1, true)
  else (st, false)

/-- `messages_to_clients[session].put(m)`: append to the session's queue;
a missing key raises `KeyError` inside the task that performs the put, so
the state is left unchanged. -/
def putClient (st : FEState) (session : String) (m : Message) : FEState :=
  match lookupD st.messages_to_clients session with
  | some q =>
      { st with messages_to_clients :=
          insertD st.messages_to_clients session (q ++ [m]) }
  | none => st

/-- One chunk written to a client transport: telnetlib3 writers accept
`str` payloads and raw option bytes. -/
inductive Chunk : Type where
  | text (s : String)
  | bytes (l : List Nat)
deriving DecidableEq, Repr

/-- One iteration of `client_write` after dequeuing `m` (clients.py
lines 231-240): if `m.is_io`, write the payload and, when `is_prompt`,
`go_ahead()`; elif `m.is_command_telnet`, write `telnet.iac([m.command])`;
accessing `is_io` on a kind-less message raises `AttributeError`, and
`iac([None])` raises `TypeError` at `b''.join`. -/
def client_write_chunks (m : Message) : Except PyErr (List Chunk) :=
  match m.msg_type with
  | none => .error .attributeError
  | some t =>
      if t = "IO" then
        .ok ([Chunk.text m.msg] ++
          (if m.prompt == "true" then [Chunk.bytes go_ahead] else []))
      else if t = "COMMAND-TELNET" then
        match m.command with
        | some cmd => .ok [Chunk.bytes (iacBytes [Tok.b cmd])]
        | none => .error .typeError
      else .ok []

/-- `client_read`'s upstream traffic (clients.py lines 147-180) for a
given sequence of `readline` results: an empty read is EOF and ends the
loop; any other read is stripped and packaged as `player/input`.
`pyStrip` models Python `str.strip()` (both models trim ASCII
whitespace). -/
def pyStrip (s : String) : String :=
  ⟨((s.data.dropWhile Char.isWhitespace).reverse.dropWhile
      Char.isWhitespace).reverse⟩

/-- Envelopes produced by the reader task, in order. -/
def client_read_envs (c : PlayerConnection) (reads : List String) :
    List Envelope :=
  match reads with
  | [] => []
  | r :: rest =>
      if r = "" then []
      else playerInputEnv c (pyStrip r) :: client_read_envs c rest

/-- The upstream envelopes contributed by one Telnet session handler
(clients.py lines 303-353) under cooperative FIFO task scheduling:
`register_client` runs (and its `connection/connected` put task is
created) before the reader task exists, and `asyncio` runs the spawned
`messages_to_game.put` tasks in creation order, so the handler's upstream
traffic is the connected envelope followed by the reader's envelopes. -/
def client_telnet_trace (c : PlayerConnection) (reads : List String) :
    List Envelope :=
  connectedEnv c :: client_read_envs c reads

/-! ## Inbound frames and the dispatcher (src/messaging/parse.py) -/

/-- The payload fields used by the inbound event handlers; a frame carries
the fields its event needs (the JSON object is abstracted to a record with
defaults for the unused fields).  `is_prompt` is the `"is prompt"` key. -/
structure Payload : Type where
  uuid : String := ""
  message : String := ""
  is_prompt : String := "false"
  name : String := ""
  command : String := ""
  wait_time : Nat := 0
deriving DecidableEq, Repr

/-- An inbound backend frame after `json.loads`: `event`, optional
`secret`, optional `payload`. -/
structure InMsg : Type where
  event : String
  secret : Option String := none
  payload : Option Payload := none
deriving DecidableEq, Repr

/-- `msg_players_output` (parse.py lines 48-59): for a registered session,
put `Message("IO", message=…, is_prompt=…)` on its queue. -/
def msg_players_output (p : Payload) (st : FEState) : FEState :=
  if (lookupD st.clients p.uuid).isSome then
    match Message.ofKwargs "IO"
        { message := some p.message, is_prompt := some p.is_prompt } with
    | .ok m => putClient st p.uuid m
    | .error _ => st
  else st

/-- `msg_players_sign_in` (parse.py lines 62-73): record the authenticated
name on the session. -/
def msg_players_sign_in (p : Payload) (st : FEState) : FEState :=
  match lookupD st.clients p.uuid with
  | some c =>
      { st with clients := insertD st.clients p.uuid { c with name := p.name } }
  | none => st

/-- `msg_players_sign_out` (parse.py lines 76-90): flip the session's
connected state off, then put the farewell message on its queue. -/
def msg_players_sign_out (p : Payload) (st : FEState) : FEState :=
  match lookupD st.clients p.uuid with
  | some c =>
      let st1 :=
        { st with clients :=
            insertD st.clients p.uuid { c with connected := false } }
      match Message.ofKwargs "IO" { message := some p.message } with
      | .ok m => putClient st1 p.uuid m
      | .error _ => st1
  | none => st

/-- `msg_player_session_command` (parse.py lines 93-112): for a registered
session of `conn_type == "telnet"`, translate the command to raw echo
bytes and put `Message("COMMAND-TELNET", command=iac_cmd)` on the queue.
The constructor call passes no `message` keyword. -/
def msg_player_session_command (p : Payload) (st : FEState) : FEState :=
  match lookupD st.clients p.uuid with
  | some c =>
      if c.conn_type = "telnet" then
        let iac_cmd :=
          if p.command = "dont echo" then echo_off
          else if p.command = "do echo" then echo_on
          else []
        match Message.ofKwargs "COMMAND-TELNET" { command := some iac_cmd } with
        | .ok m => putClient st p.uuid m
        | .error _ => st
      else st
  | none => st

/-- `msg_game_softboot` (parse.py lines 115-121): schedule a soft-boot
after `wait_time` seconds. -/
def msg_game_softboot (p : Payload) (st : FEState) : FEState :=
  { st with softboots := st.softboots ++ [p.wait_time] }

/-- Dispatch on the `messages` table (parse.py lines 124-132 and 146-150):
when a (truthy) payload is present the handler task receives it, otherwise
the handler task is called with no arguments — handlers that need a
payload then die of `TypeError` inside their own task, with no state
effect; `heartbeat` only logs. -/
def dispatch_event (event : String) (p : Option Payload) (st : FEState) :
    FEState :=
  match p with
  | some payload =>
      if event = "players/output" then msg_players_output payload st
      else if event = "players/sign-in" then msg_players_sign_in payload st
      else if event = "players/sign-out" ∨ event = "players/login-failed" then
        msg_players_sign_out payload st
      else if event = "player/session command" then
        msg_player_session_command payload st
      else if event = "game/softboot" then msg_game_softboot payload st
      else st
  | none => st

/-- `message_parse` (parse.py lines 135-150): drop the frame (log only)
when `secret` is absent or differs from `WS_SECRET`; otherwise dispatch on
the event table. -/
def message_parse (ws_secret : String) (m : InMsg) (st : FEState) : FEState :=
  match m.secret with
  | none => st
  | some s => if s ≠ ws_secret then st else dispatch_event m.event m.payload st

/-- Outcome of one iteration of a backend read loop. -/
inductive ReadStep : Type where
  | continueLoop (st : FEState)
  | disconnect (st : FEState)
deriving DecidableEq, Repr

/-- One iteration of `ws_read` (servers/servers.py lines 123-134): any
truthy frame is handed to `parse.message_parse` in a task and the loop
continues; a falsy read is EOF — the connected flag flips and the loop
ends. -/
def ws_read_step (ws_secret : String) (data : Option InMsg) (st : FEState) :
    ReadStep :=
  match data with
  | some m => .continueLoop (message_parse ws_secret m st)
  | none => .disconnect st

/-! ## Backend link handler (src/servers/servers.py) -/

/-- `servers.register_client` (servers/servers.py lines 58-64). -/
def servers_register_client (gc : GameConnection) (st : FEState) : FEState :=
  { st with games := insertD st.games gc.uuid gc }

/-- `servers.unregister_client` (servers/servers.py lines 67-75). -/
def servers_unregister_client (gc : GameConnection) (st : FEState) : FEState :=
  if (lookupD st.games gc.uuid).isSome then
    { st with games := eraseD st.games gc.uuid }
  else st

/-- Python's `needle in hay` on strings. -/
def strContainsSub (hay needle : String) : Bool :=
  decide (needle.toList <:+: hay.toList)

/-- The tail of `ws_handler` (servers/servers.py lines 197-207): after
`asyncio.wait` returns, cancel every task whose name contains this game
connection's uuid, then unregister the game connection. -/
def ws_handler_teardown (gc : GameConnection) (st : FEState) : FEState :=
  servers_unregister_client gc
    { st with tasks := st.tasks.filter (fun nm => !(strContainsSub nm gc.uuid)) }

/-- A JSON value inside the `game/load_players` players map. -/
inductive PyVal : Type where
  | str (s : String)
  | int (n : Nat)
deriving DecidableEq, Repr

/-- Python `str.lower()` (all names in play are ASCII): lower-case each
character. -/
def pyLower (s : String) : String := ⟨s.data.map Char.toLower⟩

/-- The `players` mapping built by `softboot_connection_list`
(servers/servers.py lines 107-111): `session id → [client.name.lower(),
client.addr, client.port]` over the client session registry. -/
def softboot_players (conns : List (String × PlayerConnection)) :
    List (String × List PyVal) :=
  conns.map (fun kv =>
    (kv.1, [PyVal.str (pyLower kv.2.name), PyVal.str kv.2.addr,
            PyVal.int kv.2.port]))

/-- A frame sent to the game engine by the handler itself. -/
structure LoadPlayersFrame : Type where
  event : String
  players : List (String × List PyVal)
deriving DecidableEq, Repr

/-- The single frame built and sent by `softboot_connection_list`
(servers/servers.py lines 97-120). -/
def softboot_frame (conns : List (String × PlayerConnection)) :
    LoadPlayersFrame :=
  { event := "game/load_players", players := softboot_players conns }

/-- The frames `ws_handler` (servers/servers.py lines 151-197) itself
sends on a fresh link before any spawned task output: the heartbeat,
reader and writer tasks are created but have not run when the handler
directly awaits `softboot_connection_list`, which it does exactly when the
client registry is non-empty. -/
def ws_handler_initial_frames (conns : List (String × PlayerConnection)) :
    List LoadPlayersFrame :=
  if conns.isEmpty then [] else [softboot_frame conns]

end Akrios

namespace Akrios.Legacy

/-! ## The legacy backend reader (src/servers.py, lines 129-209)

An earlier iteration of the backend link keeps the event dispatch inline
in `ws_read` and, on a bad secret, `break`s out of the read loop.  Its
per-session queues carry raw strings and telnetlib3 option tuples instead
of `Message` objects. -/

/-- An item of a legacy per-session queue: `players/output` and
`players/sign-out` put the raw message string; `player/session command`
puts a `(WILL|WONT, ECHO)` tuple of telnetlib3 byte constants. -/
inductive QItem : Type where
  | str (s : String)
  | tup (a b : List Nat)
deriving DecidableEq, Repr

/-- The state touched by the legacy reader. -/
structure LegacyState : Type where
  clients : List (String × Akrios.PlayerConnection) := []
  messages_to_clients : List (String × List QItem) := []
  softboots : List Nat := []
deriving DecidableEq, Repr

/-- Outcome of one iteration of the legacy `ws_read` loop: continue,
`break` out (bad secret), return on EOF, or die of an uncaught exception
(`KeyError` on a missing payload field or queue). -/
inductive LegacyStep : Type where
  | continueLoop (st : LegacyState)
  | breakLoop (st : LegacyState)
  | disconnect (st : LegacyState)
  | raised (st : LegacyState)
deriving DecidableEq, Repr

/-- Append an item to a legacy session queue whose current contents are
`q` (the queue was just looked up successfully). -/
def putQ (st : LegacyState) (uuid : String) (q : List QItem) (item : QItem) :
    LegacyState :=
  { st with messages_to_clients :=
      Akrios.insertD st.messages_to_clients uuid (q ++ [item]) }

/-- One iteration of the legacy `ws_read` (src/servers.py lines 142-208):
an empty read is EOF; then the secret gate — absent or wrong secret logs
and `break`s out of the read loop; then the inline event dispatch. -/
def ws_read_step (ws_secret : String) (data : Option Akrios.InMsg)
    (st : LegacyState) : LegacyStep :=
  match data with
  | none => .disconnect st
  | some m =>
      match m.secret with
      | none => .breakLoop st
      | some s =>
          if s ≠ ws_secret then .breakLoop st
          else if m.event = "players/output" then
            match m.payload with
            | none => .raised st
            | some p =>
                if (Akrios.lookupD st.clients p.uuid).isSome then
                  match Akrios.lookupD st.messages_to_clients p.uuid with
                  | some q => .continueLoop (putQ st p.uuid q (QItem.str p.message))
                  | none => .raised st
                else .continueLoop st
          else if m.event = "heartbeat" then .continueLoop st
          else if m.event = "players/sign-in" then
            match m.payload with
            | none => .raised st
            | some p =>
                match Akrios.lookupD st.clients p.uuid with
                | some c =>
                    .continueLoop
                      { st with clients := Akrios.insertD st.clients p.uuid { c with name := p.name } }
                | none => .continueLoop st
          else if m.event = "players/sign-out" ∨ m.event = "players/login-failed"
          then
            match m.payload with
            | none => .raised st
            | some p =>
                match Akrios.lookupD st.clients p.uuid with
                | some c =>
                    let st1 := { st with clients := Akrios.insertD st.clients p.uuid { c with connected := false } }
                    match Akrios.lookupD st1.messages_to_clients p.uuid with
                    | some q => .continueLoop (putQ st1 p.uuid q (QItem.str p.message))
                    | none => .raised st1
                | none => .continueLoop st
          else if m.event = "player/session command" then
            match m.payload with
            | none => .raised st
            | some p =>
                match Akrios.lookupD st.clients p.uuid with
                | some c =>
                    if c.conn_type = "telnet" then
                      if p.command = "do echo" ∨ p.command = "dont echo" then
                        let item :=
                          if p.command = "do echo" then QItem.tup [252] [1]
                          else QItem.tup [251] [1]
                        match Akrios.lookupD st.messages_to_clients p.uuid with
                        | some q => .continueLoop (putQ st p.uuid q item)
                        | none => .raised st
                      else .continueLoop st
                    else .continueLoop st
                | none => .continueLoop st
          else if m.event = "game/softboot" then
            match m.payload with
            | none => .raised st
            | some p =>
                .continueLoop { st with softboots := st.softboots ++ [p.wait_time] }
          else .continueLoop st

end Akrios.Legacy

namespace Akrios

/-! ## Helper lemmas -/

@[simp] theorem lookupD_nil {α : Type} (k : String) :
    lookupD ([] : List (String × α)) k = none := rfl

@[simp] theorem lookupD_cons {α : Type} (k' k : String) (v : α)
    (rest : List (String × α)) :
    lookupD ((k', v) :: rest) k =
      if k' = k then some v else lookupD rest k := rfl

@[simp] theorem lookupD_eraseD {α : Type} (l : List (String × α))
    (k : String) : lookupD (eraseD l k) k = none := by
  induction l with
  | nil => simp [eraseD]
  | cons p rest ih =>
      obtain ⟨k', v'⟩ := p
      by_cases hk : k' = k
      · simpa [eraseD, List.filter_cons, bne_iff_ne, hk] using ih
      · simpa [eraseD, List.filter_cons, bne_iff_ne, hk] using ih

theorem lookupD_eraseD_ne {α : Type} (l : List (String × α)) (k k' : String)
    (hne : k ≠ k') : lookupD (eraseD l k) k' = lookupD l k' := by
  induction l with
  | nil => simp [eraseD]
  | cons p rest ih =>
      obtain ⟨k₀, v₀⟩ := p
      by_cases hk : k₀ = k
      · subst hk
        have hne' : k₀ ≠ k' := hne
        simpa [eraseD, List.filter_cons, bne_iff_ne, hne'] using ih
      · by_cases h2 : k₀ = k'
        · simp [eraseD, List.filter_cons, bne_iff_ne, hk, h2, Ne.symm hne]
        · simpa [eraseD, List.filter_cons, bne_iff_ne, hk, h2] using ih

/-- Accumulator characterisation of the `split_opcode_from_input` loop. -/
theorem splitOpcodeGo_eq (data : List Nat) : ∀ ops inp : List Nat,
    splitOpcodeGo data ops inp =
      (ops ++ data.filter (fun b => decide (b ∈ code_by_byte_keys)),
       inp ++ data.filter (fun b => !decide (b ∈ code_by_byte_keys) && pyPrintable b)) := by
  induction data with
  | nil => intro ops inp; simp [splitOpcodeGo]
  | cons b rest ih =>
      intro ops inp
      by_cases hb : b ∈ code_by_byte_keys
      · simp [splitOpcodeGo, hb, ih, List.filter_cons]
      · by_cases hp : pyPrintable b
        · simp [splitOpcodeGo, hb, hp, ih, List.filter_cons]
        · simp [splitOpcodeGo, hb, hp, ih, List.filter_cons]

/-- C9: `split_opcode_from_input` partitions its input byte-by-byte in
order: a byte in the known Telnet code set goes to the opcode buffer;
otherwise a printable byte goes to the text buffer; every other byte is
dropped.  In particular a byte that is both a known code and printable
(such as 70, the character F) is filtered out of the text buffer, and each
buffer keeps the input order (both are `filter`s of the input). -/
theorem split_opcode_from_input_spec (data : List Nat) :
    split_opcode_from_input data =
      (data.filter (fun b => decide (b ∈ code_by_byte_keys)),
       data.filter (fun b => !decide (b ∈ code_by_byte_keys) && pyPrintable b)) := by
  simpa [split_opcode_from_input] using splitOpcodeGo_eq data [] []

/-- C10: the messaging `Message` constructor requires a `message` keyword
(raising `KeyError` otherwise) and assigns `msg_type` only for the kinds
IO, COMMAND-TELNET and COMMAND-SSH: on a message built with any other kind
the three kind predicates raise `AttributeError`, and on a message built
with a known kind exactly one of the three predicates is true. -/
theorem message_kind_predicates (kind : String) (kw : Kwargs) :
    (kw.message = none → Message.ofKwargs kind kw = .error .keyError) ∧
    (∀ m : Message, Message.ofKwargs kind kw = .ok m →
      (¬(kind = "IO" ∨ kind = "COMMAND-TELNET" ∨ kind = "COMMAND-SSH") →
        m.is_io = .error .attributeError ∧
        m.is_command_telnet = .error .attributeError ∧
        m.is_command_ssh = .error .attributeError) ∧
      ((kind = "IO" ∨ kind = "COMMAND-TELNET" ∨ kind = "COMMAND-SSH") →
        (m.is_io = .ok true ∧ m.is_command_telnet = .ok false ∧
            m.is_command_ssh = .ok false) ∨
        (m.is_io = .ok false ∧ m.is_command_telnet = .ok true ∧
            m.is_command_ssh = .ok false) ∨
        (m.is_io = .ok false ∧ m.is_command_telnet = .ok false ∧
            m.is_command_ssh = .ok true))) := by
  constructor
  · intro hmsg
    simp [Message.ofKwargs, hmsg]
  · intro m hm
    match hkw : kw.message with
    | none => simp [Message.ofKwargs, hkw] at hm
    | some s =>
        simp only [Message.ofKwargs, hkw] at hm
        constructor
        · intro hkind
          rw [if_neg hkind] at hm
          obtain rfl := Except.ok.inj hm
          simp [Message.is_io, Message.is_command_telnet, Message.is_command_ssh]
        · intro hkind
          rw [if_pos hkind] at hm
          obtain rfl := Except.ok.inj hm
          rcases hkind with h | h | h <;> subst h <;>
            simp [Message.is_io, Message.is_command_telnet, Message.is_command_ssh]

/-- Witness for `message_kind_predicates`: a `BOGUS` construction without
a `message` keyword raises `KeyError`, and an `IO` message satisfies
exactly the `is_io` predicate. -/
theorem message_kind_predicates_witness :
    Message.ofKwargs "BOGUS" { message := none } = .error .keyError ∧
    ((Message.is_io ⟨"x", none, "false", some "IO"⟩ = .ok true ∧
        Message.is_command_telnet ⟨"x", none, "false", some "IO"⟩ = .ok false ∧
        Message.is_command_ssh ⟨"x", none, "false", some "IO"⟩ = .ok false) ∨
      (Message.is_io ⟨"x", none, "false", some "IO"⟩ = .ok false ∧
        Message.is_command_telnet ⟨"x", none, "false", some "IO"⟩ = .ok true ∧
        Message.is_command_ssh ⟨"x", none, "false", some "IO"⟩ = .ok false) ∨
      (Message.is_io ⟨"x", none, "false", some "IO"⟩ = .ok false ∧
        Message.is_command_telnet ⟨"x", none, "false", some "IO"⟩ = .ok false ∧
        Message.is_command_ssh ⟨"x", none, "false", some "IO"⟩ = .ok true)) :=
  ⟨(message_kind_predicates "BOGUS" { message := none }).1 rfl,
   ((message_kind_predicates "IO" { message := some "x" }).2
      ⟨"x", none, "false", some "IO"⟩ rfl).2 (Or.inl rfl)⟩

/-- C8: when the Telnet-family writer dequeues an IO item whose is-prompt
flag is the string "true", it writes the payload text immediately followed
by IAC GA; for any other flag value it writes only the payload text. -/
theorem client_write_io_prompt (payload flag : String) (m : Message)
    (hm : Message.ofKwargs "IO"
        { message := some payload, is_prompt := some flag } = .ok m) :
    (flag = "true" →
      client_write_chunks m = .ok [Chunk.text payload, Chunk.bytes [255, 249]]) ∧
    (flag ≠ "true" → client_write_chunks m = .ok [Chunk.text payload]) := by
  simp only [Message.ofKwargs, Option.getD, Except.ok.injEq,
    String.reduceEq, or_false, false_or, if_true, eq_self_iff_true, true_or] at hm
  obtain rfl := hm
  constructor
  · intro hflag
    subst hflag
    simp [client_write_chunks, go_ahead]
  · intro hflag
    simp [client_write_chunks, go_ahead, hflag]

/-- Witness for `client_write_io_prompt` at the prompt payload of spec
scenario S2 and at a non-prompt payload. -/
theorem client_write_io_prompt_witness :
    client_write_chunks ⟨"> ", none, "true", some "IO"⟩ =
        .ok [Chunk.text "> ", Chunk.bytes [255, 249]] ∧
    client_write_chunks ⟨"A dark room.\r\n", none, "false", some "IO"⟩ =
        .ok [Chunk.text "A dark room.\r\n"] :=
  ⟨(client_write_io_prompt "> " "true" ⟨"> ", none, "true", some "IO"⟩ rfl).1 rfl,
   (client_write_io_prompt "A dark room.\r\n" "false"
      ⟨"A dark room.\r\n", none, "false", some "IO"⟩ rfl).2 (by decide)⟩

/-- C7: evaluation of the Telnet handler on the probe `IAC DO MSSP`.  The
handler produces exactly one reply, framed `IAC SB MSSP … IAC SE`, whose
token list contains the `NAME` variable — but for the fixed schema in
src/protocols/mssp.py (42 dict entries, `"MINIMUM AGE"` commented out, the
`PORT` list contributing four tokens per element) the `mssp_response`
token list has length 177, not the 181 asserted by the claim and by
tests/test_protocols_mssp.py, whatever scalar values the `statistics`
module supplies. -/
theorem mssp_probe_schema_eval (v1 v2 v3 : Tok) :
    telnetHandle [255, 253, 70] v1 v2 v3 =
        [iacSbBytes (mssp_response v1 v2 v3)] ∧
    iacSbBytes (mssp_response v1 v2 v3) =
        [255, 250, 70] ++
          ((mssp_response v1 v2 v3).tail.map encodeTok).flatten ++ [255, 240] ∧
    Tok.b (strBytes "NAME") ∈ mssp_response v1 v2 v3 ∧
    (mssp_response v1 v2 v3).length = 177 ∧
    (mssp_response v1 v2 v3).length ≠ 181 := by
  have h177 : (mssp_response v1 v2 v3).length = 177 := rfl
  refine ⟨rfl, rfl, ?_, h177, by rw [h177]; decide⟩
  have h : (mssp_response v1 v2 v3).get? 2 = some (Tok.b (strBytes "NAME")) := rfl
  exact List.get?_mem h

/-- C1 (amended): when the client session registry is non-empty, the
backend handler sends exactly one `game/load_players` frame before any
spawned task can send, and its `players` payload maps every registered
session id — and no other key — to the three-element list
`[name.lower(), addr, port]` of that session (the source lowercases the
stored name). -/
theorem softboot_rendezvous (conns : List (String × PlayerConnection))
    (h : conns ≠ []) :
    ws_handler_initial_frames conns = [softboot_frame conns] ∧
    (softboot_frame conns).event = "game/load_players" ∧
    (softboot_frame conns).players.map Prod.fst = conns.map Prod.fst ∧
    (∀ id c, (id, c) ∈ conns →
      (id, [PyVal.str (pyLower c.name), PyVal.str c.addr, PyVal.int c.port])
        ∈ (softboot_frame conns).players) := by
  refine ⟨?_, rfl, ?_, ?_⟩
  · cases conns with
    | nil => exact absurd rfl h
    | cons p rest => rfl
  · simp [softboot_frame, softboot_players, List.map_map]
  · intro id c hmem
    exact List.mem_map_of_mem
      (fun kv => (kv.1, [PyVal.str (pyLower kv.2.name), PyVal.str kv.2.addr,
        PyVal.int kv.2.port])) hmem

/-- Witness for `softboot_rendezvous` at a one-session registry. -/
theorem softboot_rendezvous_witness :
    ws_handler_initial_frames
        [("u", ⟨"127.0.0.1", 55000, 24, "telnet", true, false, "Alice", "u"⟩)] =
      [softboot_frame
        [("u", ⟨"127.0.0.1", 55000, 24, "telnet", true, false, "Alice", "u"⟩)]] ∧
    ("u", [PyVal.str "alice", PyVal.str "127.0.0.1", PyVal.int 55000]) ∈
      (softboot_frame
        [("u", ⟨"127.0.0.1", 55000, 24, "telnet", true, false, "Alice", "u"⟩)]).players :=
  ⟨(softboot_rendezvous _ (by simp)).1,
   (softboot_rendezvous _ (by simp)).2.2.2 "u"
      ⟨"127.0.0.1", 55000, 24, "telnet", true, false, "Alice", "u"⟩ (by simp)⟩

/-- Counterexample to C1 as stated: for a session whose stored name is
"Alice", the frame's players map carries ["alice", addr, port], not the
session's `[name, addr, port]`. -/
theorem softboot_players_lowercase_counterexample :
    softboot_players
        [("u", ⟨"127.0.0.1", 55000, 24, "telnet", true, false, "Alice", "u"⟩)] ≠
      [("u", [PyVal.str "Alice", PyVal.str "127.0.0.1", PyVal.int 55000])] ∧
    softboot_players
        [("u", ⟨"127.0.0.1", 55000, 24, "telnet", true, false, "Alice", "u"⟩)] =
      [("u", [PyVal.str "alice", PyVal.str "127.0.0.1", PyVal.int 55000])] := by
  constructor
  · decide
  · decide

/-- Cancelling tasks and unregistering the game connection touch only the
task list and the game registry. -/
theorem servers_unregister_preserves (gc : GameConnection) (st : FEState) :
    (servers_unregister_client gc st).clients = st.clients ∧
    (servers_unregister_client gc st).messages_to_clients =
      st.messages_to_clients := by
  cases h : (lookupD st.games gc.uuid).isSome <;>
    simp [servers_unregister_client, h]

/-- C2: tearing a backend link down — cancelling every task whose name
contains the link's uuid and unregistering the game connection — leaves
the client session registry and the per-session queue map unchanged, so
every client session registered before the link closed is still
registered under the same id afterwards. -/
theorem backend_teardown_preserves_sessions (gc : GameConnection)
    (st : FEState) :
    (ws_handler_teardown gc st).clients = st.clients ∧
    (ws_handler_teardown gc st).messages_to_clients = st.messages_to_clients ∧
    (∀ id c, lookupD st.clients id = some c →
      lookupD (ws_handler_teardown gc st).clients id = some c) := by
  have h := servers_unregister_preserves gc
    { st with tasks := st.tasks.filter (fun nm => !(strContainsSub nm gc.uuid)) }
  refine ⟨h.1, h.2, ?_⟩
  intro id c hc
  rw [show (ws_handler_teardown gc st).clients = st.clients from h.1]
  exact hc

/-- Witness for `backend_teardown_preserves_sessions` at a state holding
one client session and one game connection with tasks named after both. -/
theorem backend_teardown_preserves_sessions_witness :
    lookupD
      (ws_handler_teardown ⟨true, "g1"⟩
        { clients := [("u", ⟨"127.0.0.1", 55000, 24, "telnet", true, false, "", "u"⟩)],
          messages_to_clients := [("u", [])],
          games := [("g1", ⟨true, "g1"⟩)],
          tasks := ["WS: g1 hb", "WS: g1 read", "WS: g1 write", "u telnet read",
            "u telnet write"] }).clients "u" =
      some ⟨"127.0.0.1", 55000, 24, "telnet", true, false, "", "u"⟩ :=
  (backend_teardown_preserves_sessions ⟨true, "g1"⟩ _).2.2 "u"
    ⟨"127.0.0.1", 55000, 24, "telnet", true, false, "", "u"⟩ (by decide)

/-- C5: after `unregister_client(s)` the session id is absent from both
the registry and the queue map and one `connection/disconnected` envelope
has been enqueued upstream; calling it again, or calling it on a session
that was never registered, changes nothing — so the disconnect envelope
is emitted at most once per session.  The hypothesis is the registration
invariant that the registry and the queue map agree on the session's key
(they are only ever written together). -/
theorem unregister_client_spec (st : FEState) (c : PlayerConnection)
    (hsync : (lookupD st.messages_to_clients c.uuid).isSome =
      (lookupD st.clients c.uuid).isSome) :
    (unregister_client c st).2 = false ∧
    lookupD (unregister_client c st).1.clients c.uuid = none ∧
    lookupD (unregister_client c st).1.messages_to_clients c.uuid = none ∧
    ((lookupD st.clients c.uuid).isSome →
      (unregister_client c st).1.messages_to_game =
        st.messages_to_game ++ [disconnectedEnv c]) ∧
    (lookupD st.clients c.uuid = none → (unregister_client c st).1 = st) ∧
    unregister_client c (unregister_client c st).1 =
      ((unregister_client c st).1, false) := by
  by_cases hreg : (lookupD st.clients c.uuid).isSome
  · have hq : (lookupD st.messages_to_clients c.uuid).isSome := by
      rw [hsync]; exact hreg
    obtain ⟨q, hq⟩ := Option.isSome_iff_exists.mp hq
    have hstep : unregister_client c st =
        ({ st with
            clients := eraseD st.clients c.uuid
            messages_to_clients := eraseD st.messages_to_clients c.uuid
            messages_to_game := st.messages_to_game ++ [disconnectedEnv c] },
         false) := by
      simp [unregister_client, hreg, hq]
    rw [hstep]
    refine ⟨rfl, by simp, by simp, fun _ => rfl, ?_, ?_⟩
    · intro hnone
      rw [hnone] at hreg
      exact absurd hreg (by simp)
    · simp [unregister_client]
  · have hnone : lookupD st.clients c.uuid = none :=
      Option.not_isSome_iff_eq_none.mp hreg
    have hqnone : lookupD st.messages_to_clients c.uuid = none := by
      have : (lookupD st.messages_to_clients c.uuid).isSome = false := by
        rw [hsync, hnone]; rfl
      exact Option.not_isSome_iff_eq_none.mp (by simp [this])
    have hstep : unregister_client c st = (st, false) := by
      simp [unregister_client, hnone]
    rw [hstep]
    exact ⟨rfl, hnone, hqnone, fun h => absurd h (by simp [hnone]), fun _ => rfl,
      by simp [unregister_client, hnone]⟩

/-- Witness for `unregister_client_spec` at a state with one registered
session. -/
theorem unregister_client_spec_witness :
    lookupD
      (unregister_client ⟨"127.0.0.1", 55000, 24, "telnet", true, false, "", "u"⟩
        { clients := [("u", ⟨"127.0.0.1", 55000, 24, "telnet", true, false, "", "u"⟩)],
          messages_to_clients := [("u", [])] }).1.clients "u" = none ∧
    (unregister_client ⟨"127.0.0.1", 55000, 24, "telnet", true, false, "", "u"⟩
        { clients := [("u", ⟨"127.0.0.1", 55000, 24, "telnet", true, false, "", "u"⟩)],
          messages_to_clients := [("u", [])] }).1.messages_to_game =
      [] ++ [disconnectedEnv ⟨"127.0.0.1", 55000, 24, "telnet", true, false, "", "u"⟩] :=
  ⟨(unregister_client_spec _ _ rfl).2.1,
   (unregister_client_spec _ _ rfl).2.2.2.1 (by decide)⟩

/-- C6: for every session, the `connection/connected` envelope reaches
the upstream queue strictly before any `player/input` envelope produced
by that session's reader.  Registration (which enqueues the connected
envelope) runs before the reader task is created and the spawned put
tasks preserve creation order, so in the queue — here an arbitrary prior
queue `q0` holding no envelopes of this session, extended by the
handler's trace — the connected envelope sits at an index strictly below
every `player/input` of the session. -/
theorem connected_before_input (c : PlayerConnection) (reads : List String)
    (q0 : List Envelope) (hq0 : ∀ e ∈ q0, e.uuid ≠ c.uuid)
    (i : Nat) (e : Envelope)
    (hi : (q0 ++ client_telnet_trace c reads).get? i = some e)
    (hev : e.event = "player/input") (hu : e.uuid = c.uuid) :
    q0.length < i ∧
    (q0 ++ client_telnet_trace c reads).get? q0.length =
      some (connectedEnv c) := by
  have hconn : (q0 ++ client_telnet_trace c reads).get? q0.length =
      some (connectedEnv c) := by
    rw [List.get?_append_right (Nat.le_refl _)]
    simp [client_telnet_trace]
  refine ⟨?_, hconn⟩
  rcases Nat.lt_trichotomy i q0.length with hlt | heq | hgt
  · exfalso
    rw [List.get?_append hlt] at hi
    exact hq0 e (List.get?_mem hi) hu
  · exfalso
    rw [heq] at hi
    rw [hconn] at hi
    obtain rfl := Option.some.inj hi
    simp [connectedEnv] at hev
  · exact hgt

/-- Witness for `connected_before_input`: one session, one input line,
an empty prior queue; the `player/input` envelope sits at index 1 and the
connected envelope at index 0. -/
theorem connected_before_input_witness :
    ([] : List Envelope).length < 1 ∧
    (([] : List Envelope) ++
        client_telnet_trace
          ⟨"127.0.0.1", 55000, 24, "telnet", true, false, "", "u"⟩
          ["look\n"]).get? ([] : List Envelope).length =
      some (connectedEnv ⟨"127.0.0.1", 55000, 24, "telnet", true, false, "", "u"⟩) :=
  connected_before_input
    ⟨"127.0.0.1", 55000, 24, "telnet", true, false, "", "u"⟩ ["look\n"] []
    (by simp) 1
    (playerInputEnv ⟨"127.0.0.1", 55000, 24, "telnet", true, false, "", "u"⟩ "look")
    (by decide) rfl rfl

/-- C3 (amended): in the current pipeline an inbound backend frame whose
secret is absent or wrong has no downstream effect — `message_parse`
returns the state untouched (no queue write, no session state or name
change, no scheduled soft-boot) and the `ws_read` loop of
servers/servers.py simply continues, leaving the link up.  (The legacy
reader of src/servers.py instead breaks out of its read loop on such a
frame; see the counterexample.) -/
theorem bad_secret_frame_no_effect (ws : String) (m : InMsg) (st : FEState)
    (hbad : m.secret ≠ some ws) :
    message_parse ws m st = st ∧
    ws_read_step ws (some m) st = .continueLoop st := by
  cases hsec : m.secret with
  | none => exact ⟨by simp [message_parse, hsec], by simp [ws_read_step, message_parse, hsec]⟩
  | some s =>
      have hne : s ≠ ws := by
        intro h
        exact hbad (by rw [hsec, h])
      exact ⟨by simp [message_parse, hsec, hne],
        by simp [ws_read_step, message_parse, hsec, hne]⟩

/-- Witness for `bad_secret_frame_no_effect`: a `players/output` frame
carrying the wrong secret leaves a one-session state untouched and the
read loop running. -/
theorem bad_secret_frame_no_effect_witness :
    message_parse "SECRET"
        { event := "players/output", secret := some "WRONG",
          payload := some { uuid := "u", message := "hi" } }
        { clients := [("u", ⟨"127.0.0.1", 55000, 24, "telnet", true, false, "", "u"⟩)],
          messages_to_clients := [("u", [])] } =
      { clients := [("u", ⟨"127.0.0.1", 55000, 24, "telnet", true, false, "", "u"⟩)],
        messages_to_clients := [("u", [])] } :=
  (bad_secret_frame_no_effect "SECRET"
    { event := "players/output", secret := some "WRONG",
      payload := some { uuid := "u", message := "hi" } }
    { clients := [("u", ⟨"127.0.0.1", 55000, 24, "telnet", true, false, "", "u"⟩)],
      messages_to_clients := [("u", [])] } (by decide)).1

/-- Counterexample to C3 as stated: the legacy reader of src/servers.py
(cited by the claim) reacts to a single bad-secret frame by breaking out
of its read loop, tearing that link's reader down rather than continuing. -/
theorem legacy_bad_secret_breaks_read_loop :
    Legacy.ws_read_step "SECRET"
        (some { event := "players/output", secret := none,
                payload := some { uuid := "u", message := "hi" } })
        {} =
      Legacy.LegacyStep.breakLoop {} ∧
    Legacy.LegacyStep.breakLoop ({} : Legacy.LegacyState) ≠
      Legacy.LegacyStep.continueLoop {} := by
  exact ⟨rfl, by decide⟩

/-- C4 (evaluation at the failing input): dispatching a
`player/session command` with command "dont echo" for a registered Telnet
session leaves the state — in particular the session's outbound queue —
completely unchanged, because `Message("COMMAND-TELNET", command=…)` is
constructed without the `message` keyword that the messaging `Message`
requires, so the handler task dies of `KeyError` before the put.  The
translated bytes would have been `IAC WILL ECHO`, and had an item been
enqueued, `client_write` would have written `telnet.iac([command])`,
prepending a further IAC byte. -/
theorem session_command_keyerror_eval :
    msg_player_session_command { uuid := "u", command := "dont echo" }
        { clients := [("u", ⟨"127.0.0.1", 55000, 24, "telnet", true, false, "", "u"⟩)],
          messages_to_clients := [("u", [])] } =
      { clients := [("u", ⟨"127.0.0.1", 55000, 24, "telnet", true, false, "", "u"⟩)],
        messages_to_clients := [("u", [])] } ∧
    lookupD
      (msg_player_session_command { uuid := "u", command := "dont echo" }
        { clients := [("u", ⟨"127.0.0.1", 55000, 24, "telnet", true, false, "", "u"⟩)],
          messages_to_clients := [("u", [])] }).messages_to_clients "u" =
      some [] ∧
    Message.ofKwargs "COMMAND-TELNET" { command := some echo_off } =
      .error .keyError ∧
    echo_off = [255, 251, 1] ∧
    echo_on = [255, 252, 1] ∧
    iacBytes [Tok.b echo_off] = [255, 255, 251, 1] := by
  exact ⟨rfl, rfl, rfl, rfl, rfl, rfl⟩

end Akrios
